import Mathlib

/-!
Shallow embedding of the broker-mediated RPC worker in `lab4/mq_worker.py`
(together with the pieces of `lab4/mq_common.py`, `app/db/models.py` and
`app/api/deps.py` it uses), and proofs about the claims of the spec.

Modelling conventions:
* A decoded JSON document (the result of `json.loads`) is a `JVal`.
  JSON numbers are modelled as integers (the worker only ever converts
  them with the `int` builtin or passes them through verbatim).
* Python exceptions are a kind (`ValueError` vs any other `Exception`,
  the only distinction `on_message` makes) together with a message.
* The database session is explicit state (`DBState`), and broker
  publications / acknowledgements are a list of `Effect`s returned by
  the message handler.
-/

namespace MQ

/-- A decoded JSON value, as produced by `json.loads`. -/
inductive JVal where
  | jnull
  | jbool (b : Bool)
  | jint (n : Int)
  | jstr (s : String)
  | jarr (xs : List JVal)
  | jobj (kvs : List (String × JVal))

/-- Dictionary lookup, `d.get(k)`.  Keys of a decoded JSON object are
distinct, so first-match lookup is the dictionary lookup. -/
def jLookup (kvs : List (String × JVal)) (k : String) : Option JVal :=
  match kvs with
  | [] => none
  | (k2, v) :: t => if k2 = k then some v else jLookup t k

/-- Python truthiness of a decoded JSON value (`if v:`). -/
def truthy : JVal → Bool
  | .jnull => false
  | .jbool b => b
  | .jint n => n != 0
  | .jstr s => s != ""
  | .jarr xs => !xs.isEmpty
  | .jobj kvs => !kvs.isEmpty

/-- Python `x or y` on an optional lookup result: `d.get(k) or default`.
An absent key yields `None`, which is falsy. -/
def pyOr (o : Option JVal) (dflt : JVal) : JVal :=
  match o with
  | some v => if truthy v then v else dflt
  | none => dflt

/-- Python `str` builtin on a decoded JSON value.  The rendering of
containers (lists/dicts) is abstracted; the worker never branches on it. -/
def pyStr : JVal → String
  | .jnull => "None"
  | .jbool true => "True"
  | .jbool false => "False"
  | .jint n => toString n
  | .jstr s => s
  | .jarr _ => "<list>"
  | .jobj _ => "<dict>"

/-- The only distinction the workers exception handlers make:
`except ValueError` vs the catch-all `except Exception`. -/
inductive ExcKind where
  | valueError
  | otherError
deriving Repr, DecidableEq

/-- A raised Python exception: its class (up to the distinction above)
and its message (`str(e)`). -/
structure PyExc where
  kind : ExcKind
  msg : String
deriving Repr, DecidableEq

/-- Python `str.strip()`: drop surrounding whitespace. -/
def pyStrip (s : String) : String :=
  String.mk
    (((s.data.dropWhile Char.isWhitespace).reverse.dropWhile Char.isWhitespace).reverse)

/-- Value of a decimal digit character. -/
def digitVal (c : Char) : Option Nat :=
  if c.isDigit then some (c.toNat - 48) else none

/-- Accumulate a non-empty all-digit character list into a number. -/
def digitsToNat (cs : List Char) (acc : Nat) : Option Nat :=
  match cs with
  | [] => some acc
  | c :: t =>
    match digitVal c with
    | some d => digitsToNat t (acc * 10 + d)
    | none => none

/-- String accepted by the `int` builtin: optional surrounding space,
optional sign, decimal digits. -/
def parseIntString (s : String) : Option Int :=
  let cs := (pyStrip s).data
  let signed : Bool × List Char :=
    match cs with
    | '-' :: t => (true, t)
    | '+' :: t => (false, t)
    | t => (false, t)
  match signed.2 with
  | [] => none
  | _ => (digitsToNat signed.2 0).map (fun n => if signed.1 then -(n : Int) else (n : Int))

/-- Python `int(v)` on a decoded JSON value.  A bad string raises
`ValueError`; `None`, lists and dicts raise `TypeError` (not a
`ValueError`, hence `ExcKind.otherError`). -/
def pyInt : JVal → Except PyExc Int
  | .jint n => .ok n
  | .jbool b => .ok (if b then 1 else 0)
  | .jstr s =>
    match parseIntString s with
    | some n => .ok n
    | none => .error ⟨.valueError, "invalid literal for int() with base 10: " ++ s⟩
  | .jnull => .error ⟨.otherError, "int() argument must be a string or a number, not NoneType"⟩
  | .jarr _ => .error ⟨.otherError, "int() argument must be a string or a number, not list"⟩
  | .jobj _ => .error ⟨.otherError, "int() argument must be a string or a number, not dict"⟩

/-- `v.get(k)` on a value that may not be a dict: a non-dict raises
`AttributeError` (not a `ValueError`). -/
def pyGet (v : JVal) (k : String) : Except PyExc (Option JVal) :=
  match v with
  | .jobj kvs => .ok (jLookup kvs k)
  | _ => .error ⟨.otherError, "AttributeError: object has no attribute get"⟩

/-- Truthiness of an optional lookup result (`d.get(k)` may be `None`). -/
def truthyOpt : Option JVal → Bool
  | none => false
  | some v => truthy v

mutual
/-- Structural equality of decoded JSON values (used to model the
equality filter on stored columns holding request-supplied values). -/
def beqJ : JVal → JVal → Bool
  | .jnull, .jnull => true
  | .jbool a, .jbool b => a == b
  | .jint a, .jint b => a == b
  | .jstr a, .jstr b => a == b
  | .jarr a, .jarr b => beqJList a b
  | .jobj a, .jobj b => beqJObj a b
  | _, _ => false

def beqJList : List JVal → List JVal → Bool
  | [], [] => true
  | x :: xs, y :: ys => beqJ x y && beqJList xs ys
  | _, _ => false

def beqJObj : List (String × JVal) → List (String × JVal) → Bool
  | [], [] => true
  | (k1, v1) :: xs, (k2, v2) :: ys => k1 == k2 && beqJ v1 v2 && beqJObj xs ys
  | _, _ => false
end

/-- The Response envelope, `_make_resp`s shape:
`{"correlation_id": ..., "status": ..., "data": ..., "error": ...}`. -/
structure Response where
  correlation_id : String
  status : String
  data : Option JVal
  error : Option String

/-- `_make_resp(req_id, status, data=None, error=None)`. -/
def make_resp (req_id status : String) (data : Option JVal) (error : Option String) :
    Response :=
  { correlation_id := req_id, status := status, data := data, error := error }

/-- A row of the `users` table (`UserDB`).  `email` and `full_name` hold
request-supplied JSON values. -/
structure UserR where
  id : Int
  email : JVal
  password_hash : String
  full_name : JVal

/-- A row of the `tasks` table (`TaskDB`).  Datetimes are modelled as
their ISO strings; the enum rendering of `status`/`priority` defaults is
abstracted to the enum value string. -/
structure TaskR where
  id : Int
  owner_id : Int
  title : JVal
  description : JVal
  status : JVal
  priority : JVal
  due_date : Option String
  created_at : Option String
  updated_at : Option String

/-- The database session state: the three tables touched by the worker
(`users`, `tasks`, `processed_requests`) and the autoincrement counters. -/
structure DBState where
  users : List UserR
  tasks : List TaskR
  ledger : List (String × Response)
  nextUserId : Int
  nextTaskId : Int

/-- External collaborators of `handle_request`: `jose.jwt.decode`
(returning `none` on `JWTError`), the password helpers of
`app/api/deps.py`, `datetime.fromisoformat` (returning `none` when it
raises), and the wall clock. -/
structure Env where
  jwtDecode : String → Option (List (String × JVal))
  hashPassword : JVal → String
  verifyPassword : JVal → String → Bool
  createAccessToken : String → String
  parseIso : String → Option String
  nowIso : String

/-- `datetime.fromisoformat` applied to a request-supplied value; the
callers wrap it in a catch-all `except`, so any raise is `none` here. -/
def parseIsoV (env : Env) (v : JVal) : Option String :=
  match v with
  | .jstr s => env.parseIso s
  | _ => none

/-- Does the lowercased string start with `bearer` followed by a space
(`token.lower().startswith("bearer ")`)? -/
def hasBearer (t : String) : Bool :=
  match t.data.map Char.toLower with
  | 'b' :: 'e' :: 'a' :: 'r' :: 'e' :: 'r' :: ' ' :: _ => true
  | _ => false

/-- Token normalization at the top of `_auth_user_from_token`: strip,
then drop a leading case-insensitive `bearer ` prefix.  The Python code
uses `token.split(" ", 1)[1]`; under the `startswith` guard the first
space is the one at index 6, so this equals dropping 7 characters. -/
def stripBearer (token : String) : String :=
  let t := pyStrip token
  if hasBearer t then pyStrip (String.mk (t.data.drop 7)) else t

/-- `_auth_user_from_token`.  `JWTError` and a missing/falsy `sub` and an
unknown user raise `ValueError`; `int(user_id)` may itself raise (a
`ValueError` for a bad string, a `TypeError` otherwise) and propagates. -/
def auth_user_from_token (env : Env) (db : DBState) (token : String) :
    Except PyExc UserR :=
  match env.jwtDecode (stripBearer token) with
  | none => .error ⟨.valueError, "Invalid token"⟩
  | some payload =>
    match jLookup payload "sub" with
    | none => .error ⟨.valueError, "Invalid token payload (no sub)"⟩
    | some uid =>
      if !truthy uid then .error ⟨.valueError, "Invalid token payload (no sub)"⟩
      else
        match pyInt uid with
        | .error e => .error e
        | .ok n =>
          match db.users.find? (fun u => u.id == n) with
          | none => .error ⟨.valueError, "User not found"⟩
          | some u => .ok u

/-- `None`-aware ISO rendering used by `_task_to_dict` for datetimes. -/
def jOptStr : Option String → JVal
  | none => .jnull
  | some s => .jstr s

/-- `_task_to_dict`. -/
def task_to_dict (t : TaskR) : JVal :=
  .jobj [("id", .jint t.id), ("owner_id", .jint t.owner_id), ("title", t.title),
         ("description", t.description), ("status", .jstr (pyStr t.status)),
         ("priority", .jstr (pyStr t.priority)), ("due_date", jOptStr t.due_date),
         ("created_at", jOptStr t.created_at), ("updated_at", jOptStr t.updated_at)]

/-- Insert a task into a list kept in descending id order. -/
def insertByIdDesc (t : TaskR) : List TaskR → List TaskR
  | [] => [t]
  | h :: r => if h.id ≤ t.id then t :: h :: r else h :: insertByIdDesc t r

/-- `order_by(TaskDB.id.desc())`. -/
def sortByIdDesc : List TaskR → List TaskR
  | [] => []
  | h :: r => insertByIdDesc h (sortByIdDesc r)

/-- The `v1.register` branch of `handle_request`. -/
def registerAction (env : Env) (db : DBState) (req_id : String)
    (data : List (String × JVal)) : (Except PyExc Response) × DBState :=
  let email := jLookup data "email"
  let password := jLookup data "password"
  let full_name := jLookup data "full_name"
  if !truthyOpt email || !truthyOpt password || !truthyOpt full_name then
    (.ok (make_resp req_id "error" none (some "email/password/full_name required")), db)
  else
    let emailV := email.getD .jnull
    match db.users.find? (fun u => beqJ u.email emailV) with
    | some _ => (.ok (make_resp req_id "error" none (some "User already exists")), db)
    | none =>
      let u : UserR :=
        { id := db.nextUserId, email := emailV,
          password_hash := env.hashPassword (password.getD .jnull),
          full_name := full_name.getD .jnull }
      let db2 := { db with users := db.users ++ [u], nextUserId := db.nextUserId + 1 }
      (.ok (make_resp req_id "ok"
        (some (.jobj [("id", .jint u.id), ("email", u.email),
                      ("full_name", u.full_name)])) none), db2)

/-- The `v1.login` branch of `handle_request`. -/
def loginAction (env : Env) (db : DBState) (req_id : String)
    (data : List (String × JVal)) : (Except PyExc Response) × DBState :=
  let email := jLookup data "email"
  let password := jLookup data "password"
  if !truthyOpt email || !truthyOpt password then
    (.ok (make_resp req_id "error" none (some "email/password required")), db)
  else
    match db.users.find? (fun u => beqJ u.email (email.getD .jnull)) with
    | none =>
      (.ok (make_resp req_id "error" none (some "Incorrect email or password")), db)
    | some u =>
      if !env.verifyPassword (password.getD .jnull) u.password_hash then
        (.ok (make_resp req_id "error" none (some "Incorrect email or password")), db)
      else
        (.ok (make_resp req_id "ok"
          (some (.jobj [("access_token", .jstr (env.createAccessToken (toString u.id))),
                        ("token_type", .jstr "bearer")])) none), db)

/-- The `create_task` branch. -/
def createTask (env : Env) (db : DBState) (req_id version : String)
    (data : List (String × JVal)) (u : UserR) : (Except PyExc Response) × DBState :=
  let title := jLookup data "title"
  if !truthyOpt title then
    (.ok (make_resp req_id "error" none (some "title required")), db)
  else
    let priorityV :=
      if version = "v2" && truthyOpt (jLookup data "priority") then
        (jLookup data "priority").getD .jnull
      else .jstr "medium"
    let dd := jLookup data "due_date"
    let parsedDue : Option (Option String) :=
      if truthyOpt dd then
        match parseIsoV env (dd.getD .jnull) with
        | none => none
        | some d => some (some d)
      else some none
    match parsedDue with
    | none =>
      (.ok (make_resp req_id "error" none
        (some "due_date must be ISO format, e.g. 2025-12-31 or 2025-12-31T10:00:00")), db)
    | some due =>
      let t : TaskR :=
        { id := db.nextTaskId, owner_id := u.id, title := title.getD .jnull,
          description := (jLookup data "description").getD .jnull,
          status := .jstr "todo", priority := priorityV, due_date := due,
          created_at := some env.nowIso, updated_at := some env.nowIso }
      let db2 := { db with tasks := db.tasks ++ [t], nextTaskId := db.nextTaskId + 1 }
      (.ok (make_resp req_id "ok" (some (task_to_dict t)) none), db2)

/-- The `get_task` branch; note that `int(task_id)` may raise and the
exception propagates out of `handle_request`. -/
def getTask (db : DBState) (req_id : String) (data : List (String × JVal))
    (u : UserR) : (Except PyExc Response) × DBState :=
  let tid := jLookup data "task_id"
  if !truthyOpt tid then
    (.ok (make_resp req_id "error" none (some "task_id required")), db)
  else
    match pyInt (tid.getD .jnull) with
    | .error e => (.error e, db)
    | .ok n =>
      match db.tasks.find? (fun t => t.id == n && t.owner_id == u.id) with
      | none => (.ok (make_resp req_id "error" none (some "Task not found")), db)
      | some t => (.ok (make_resp req_id "ok" (some (task_to_dict t)) none), db)

/-- One step of the `for field in [...]` update loop of `update_task`:
a present, non-`None` value replaces the current one, except that
`priority` is skipped outside `v2` (`allowed = false`). -/
def updField (data : List (String × JVal)) (k : String) (cur : JVal)
    (allowed : Bool) : JVal :=
  match jLookup data k with
  | some .jnull => cur
  | some v => if allowed then v else cur
  | none => cur

/-- The `update_task` branch.  On a bad `due_date` the function returns
before `commit`; the pending attribute changes are modelled as rolled
back (the session is closed without a commit of them). -/
def updateTask (env : Env) (db : DBState) (req_id version : String)
    (data : List (String × JVal)) (u : UserR) : (Except PyExc Response) × DBState :=
  let tid := jLookup data "task_id"
  if !truthyOpt tid then
    (.ok (make_resp req_id "error" none (some "task_id required")), db)
  else
    match pyInt (tid.getD .jnull) with
    | .error e => (.error e, db)
    | .ok n =>
      match db.tasks.find? (fun t => t.id == n && t.owner_id == u.id) with
      | none => (.ok (make_resp req_id "error" none (some "Task not found")), db)
      | some t =>
        let t1 : TaskR :=
          { t with title := updField data "title" t.title true,
                   description := updField data "description" t.description true,
                   status := updField data "status" t.status true,
                   priority := updField data "priority" t.priority (version = "v2") }
        let withDue : Option TaskR :=
          match jLookup data "due_date" with
          | none => some t1
          | some .jnull => some { t1 with due_date := none }
          | some v =>
            match parseIsoV env v with
            | none => none
            | some d => some { t1 with due_date := some d }
        match withDue with
        | none => (.ok (make_resp req_id "error" none (some "due_date must be ISO format")), db)
        | some t2 =>
          let t3 := { t2 with updated_at := some env.nowIso }
          let db2 := { db with tasks := db.tasks.map (fun t0 => if t0.id == n then t3 else t0) }
          (.ok (make_resp req_id "ok" (some (task_to_dict t3)) none), db2)

/-- The `delete_task` branch. -/
def deleteTask (db : DBState) (req_id : String) (data : List (String × JVal))
    (u : UserR) : (Except PyExc Response) × DBState :=
  let tid := jLookup data "task_id"
  if !truthyOpt tid then
    (.ok (make_resp req_id "error" none (some "task_id required")), db)
  else
    match pyInt (tid.getD .jnull) with
    | .error e => (.error e, db)
    | .ok n =>
      match db.tasks.find? (fun t => t.id == n && t.owner_id == u.id) with
      | none => (.ok (make_resp req_id "error" none (some "Task not found")), db)
      | some _ =>
        let db2 := { db with tasks := db.tasks.filter (fun t0 => !(t0.id == n)) }
        (.ok (make_resp req_id "ok"
          (some (.jobj [("deleted", .jbool true), ("task_id", .jint n)])) none), db2)

/-- The authenticated tail of `handle_request` (the `---- TASKS ----`
section plus the final unknown-action fallthrough). -/
def taskActions (env : Env) (db : DBState) (req_id version action : String)
    (data : List (String × JVal)) (u : UserR) : (Except PyExc Response) × DBState :=
  if action = "create_task" then createTask env db req_id version data u
  else if action = "list_tasks" then
    (.ok (make_resp req_id "ok"
      (some (.jarr ((sortByIdDesc (db.tasks.filter (fun t => t.owner_id == u.id))).map
        task_to_dict))) none), db)
  else if action = "get_task" then getTask db req_id data u
  else if action = "update_task" then updateTask env db req_id version data u
  else if action = "delete_task" then deleteTask db req_id data u
  else
    (.ok (make_resp req_id "error" none
      (some ("Unknown action: " ++ version ++ "." ++ action))), db)

/-- The part of `handle_request` after the simulate check and the
required-fields validation: unauthenticated actions, then the
authentication gate, then the task actions. -/
def handleAction (env : Env) (db : DBState) (req_id version action : String)
    (data : List (String × JVal)) (auth : String) : (Except PyExc Response) × DBState :=
  if version = "v1" && action = "health_check" then
    (.ok (make_resp req_id "ok" (some (.jobj [("status", .jstr "ok")])) none), db)
  else if version = "v1" && action = "register" then
    registerAction env db req_id data
  else if version = "v1" && action = "login" then
    loginAction env db req_id data
  else if auth = "" then
    (.ok (make_resp req_id "error" none (some "auth (JWT token) required for this action")), db)
  else
    match auth_user_from_token env db auth with
    | .error e =>
      if e.kind = .valueError then
        (.ok (make_resp req_id "error" none (some e.msg)), db)
      else (.error e, db)
    | .ok current_user => taskActions env db req_id version action data current_user

/-- `handle_request(db, req)`.  Mirrors the source order: field
extraction, the `simulate_temp_error` check, required-field validation,
then dispatch.  A non-dict `req` or a truthy non-dict `data` raises
`AttributeError` at the first `.get` on it. -/
def handle_request (env : Env) (db : DBState) (req : JVal) :
    (Except PyExc Response) × DBState :=
  match req with
  | .jobj kvs =>
    let req_id := pyStr (pyOr (jLookup kvs "id") (.jstr ""))
    let version := pyStr (pyOr (jLookup kvs "version") (.jstr ""))
    let action := pyStr (pyOr (jLookup kvs "action") (.jstr ""))
    let auth := pyStr (pyOr (jLookup kvs "auth") (.jstr ""))
    match pyOr (jLookup kvs "data") (.jobj []) with
    | .jobj data =>
      match jLookup data "simulate_temp_error" with
      | some (.jbool true) => (.error ⟨.otherError, "Simulated temporary error"⟩, db)
      | _ =>
        if req_id = "" || version = "" || action = "" then
          (.ok (make_resp (if req_id = "" then "unknown" else req_id) "error" none
            (some "Missing required fields: id/version/action")), db)
        else handleAction env db req_id version action data auth
    | _ => (.error ⟨.otherError, "AttributeError: object has no attribute get"⟩, db)
  | _ => (.error ⟨.otherError, "AttributeError: object has no attribute get"⟩, db)

/-- The transport properties of a delivery (`pika.BasicProperties`):
the fields `on_message` reads. -/
structure Props where
  correlation_id : Option String
  reply_to : Option String
  headers : Option (List (String × JVal))

/-- The fields of `MQSettings` the worker callback uses. -/
structure WSettings where
  exchange : String
  responses_rk : String
  retry_rk : String
  dlq_rk : String
  max_retries : Int

/-- A broker operation performed by `on_message`: a publication to the
reply queue, the shared responses route, the retry route or the
dead-letter route, or the acknowledgement of the delivery. -/
inductive Effect where
  | publishReply (queue : String) (corr : Option String) (resp : Response)
  | publishResponses (exchange rk : String) (corr : Option String) (resp : Response)
  | publishRetry (exchange rk : String) (corr replyTo : Option String)
      (retryCount : Int) (body : JVal)
  | publishDlq (exchange rk : String) (failedAt reason : String) (request : JVal)
      (corr replyTo : Option String) (headers : List (String × JVal))
  | ack

/-- `_publish_response`: RPC-style reply when `props.reply_to` is truthy,
else the shared responses queue. -/
def publish_response (s : WSettings) (props : Props) (body : Response) : Effect :=
  match props.reply_to with
  | some rt =>
    if rt ≠ "" then .publishReply rt props.correlation_id body
    else .publishResponses s.exchange s.responses_rk props.correlation_id body
  | none => .publishResponses s.exchange s.responses_rk props.correlation_id body

/-- `_get_retry_count`: `int(h.get("x-retry-count", 0))` under a
catch-all `except` returning 0. -/
def get_retry_count (props : Props) : Int :=
  match jLookup (props.headers.getD []) "x-retry-count" with
  | none => 0
  | some v =>
    match pyInt v with
    | .ok n => n
    | .error _ => 0

/-- `_republish_to_retry`: publish the original request body to the
retry route, preserving `correlation_id` and `reply_to`, with the header
counter read from the incoming properties plus one. -/
def republish_to_retry (s : WSettings) (req_body : JVal) (props : Props) : Effect :=
  .publishRetry s.exchange s.retry_rk props.correlation_id props.reply_to
    (get_retry_count props + 1) req_body

/-- `_send_to_dlq`: the dead-letter publication and its payload fields. -/
def send_to_dlq (env : Env) (s : WSettings) (req_body : JVal) (props : Props)
    (reason : String) : Effect :=
  .publishDlq s.exchange s.dlq_rk env.nowIso reason req_body props.correlation_id
    props.reply_to (props.headers.getD [])

/-- Primary-key lookup in the `processed_requests` table. -/
def ledgerLookup (l : List (String × Response)) (id : String) : Option Response :=
  match l with
  | [] => none
  | (k, r) :: t => if k = id then some r else ledgerLookup t id

/-- `db.add(ProcessedRequestDB(id=req_id, response_json=resp)); db.commit()`:
a plain INSERT of the primary key.  A duplicate key makes the commit
raise an `IntegrityError` (not a `ValueError`); the first record is left
untouched. -/
def record_ledger (db : DBState) (id : String) (resp : Response) :
    Except PyExc DBState :=
  match ledgerLookup db.ledger id with
  | some _ =>
    .error ⟨.otherError, "IntegrityError: UNIQUE constraint failed: processed_requests.id"⟩
  | none => .ok { db with ledger := db.ledger ++ [(id, resp)] }

/-- The guarded insert of the retries-exhausted path (lines 395-399):
`try: add; commit except Exception: db.rollback()`. -/
def record_ledger_caught (db : DBState) (id : String) (resp : Response) : DBState :=
  match record_ledger db id resp with
  | .ok db2 => db2
  | .error _ => db

/-- Python `x or default` on an optional string (`resp["error"] or "error"`). -/
def pyOrStrOpt (o : Option String) (dflt : String) : String :=
  match o with
  | some st => if st ≠ "" then st else dflt
  | none => dflt

/-- The `except ValueError` block of `on_message`: build the error
Response, dead-letter, respond, acknowledge.  No ledger record. -/
def value_error_path (env : Env) (s : WSettings) (db : DBState) (props : Props)
    (req_body : JVal) (req_id msg : String) : List Effect × DBState :=
  ([send_to_dlq env s req_body props msg,
    publish_response s props (make_resp req_id "error" none (some msg)),
    .ack], db)

/-- The `except Exception` block of `on_message`: schedule a retry while
the header counter is below `max_retries`, otherwise dead-letter with a
`retries exhausted` reason, record the error Response (insert guarded by
a rollback), respond and acknowledge. -/
def transient_path (env : Env) (s : WSettings) (db : DBState) (props : Props)
    (req_body : JVal) (req_id excMsg : String) : List Effect × DBState :=
  if get_retry_count props < s.max_retries then
    ([republish_to_retry s req_body props, .ack], db)
  else
    let reason := "retries exhausted: " ++ excMsg
    let resp := make_resp req_id "error" none (some reason)
    ([send_to_dlq env s req_body props reason,
      publish_response s props resp, .ack],
     record_ledger_caught db req_id resp)

/-- The `resp["status"] == "error"` terminal of `on_message` (business
error): dead-letter a copy, respond, record in the ledger, acknowledge.
The record is not guarded here: if its commit raises, the exception
falls through to the `except Exception` block after the first two
publications already happened. -/
def business_error_path (env : Env) (s : WSettings) (db : DBState) (props : Props)
    (req_body : JVal) (req_id : String) (resp : Response) : List Effect × DBState :=
  let pre := [send_to_dlq env s req_body props (pyOrStrOpt resp.error "error"),
              publish_response s props resp]
  match record_ledger db req_id resp with
  | .ok db2 => (pre ++ [.ack], db2)
  | .error e =>
    let r := transient_path env s db props req_body req_id e.msg
    (pre ++ r.1, r.2)

/-- The success terminal of `on_message`: record in the ledger (an
unguarded insert whose failure falls through to `except Exception`),
respond, acknowledge. -/
def success_path (env : Env) (s : WSettings) (db : DBState) (props : Props)
    (req_body : JVal) (req_id : String) (resp : Response) : List Effect × DBState :=
  match record_ledger db req_id resp with
  | .ok db2 => ([publish_response s props resp, .ack], db2)
  | .error e => transient_path env s db props req_body req_id e.msg

/-- `str(req_body.get("id") or "unknown")` (line 332). -/
def req_id_of (kvs : List (String × JVal)) : String :=
  pyStr (pyOr (jLookup kvs "id") (.jstr "unknown"))

/-- The body of the `try` block of `on_message` once the payload has
decoded to a dict: ledger replay, else dispatch and classify. -/
def process_request (env : Env) (s : WSettings) (db : DBState) (props : Props)
    (kvs : List (String × JVal)) : List Effect × DBState :=
  match ledgerLookup db.ledger (req_id_of kvs) with
  | some cached => ([publish_response s props cached, .ack], db)
  | none =>
    match handle_request env db (.jobj kvs) with
    | (.ok resp, db1) =>
      if resp.status = "error" then
        business_error_path env s db1 props (.jobj kvs) (req_id_of kvs) resp
      else success_path env s db1 props (.jobj kvs) (req_id_of kvs) resp
    | (.error e, db1) =>
      if e.kind = .valueError then
        value_error_path env s db1 props (.jobj kvs) (req_id_of kvs) e.msg
      else transient_path env s db1 props (.jobj kvs) (req_id_of kvs) e.msg

/-- `_safe_json_loads`: a decode failure of the raw body becomes a
`ValueError` whose message prefixes the decoder error. -/
def safe_json_loads (parsed : Except String JVal) : Except PyExc JVal :=
  match parsed with
  | .ok v => .ok v
  | .error e => .error ⟨.valueError, "Invalid JSON: " ++ e⟩

/-- `on_message`, modelled over the outcome of decoding the raw bytes.
A decode failure reaches `except ValueError` with `req_body = {}` and
`req_id = "unknown"`; a payload decoding to a non-dict raises
`AttributeError` at `req_body.get("id")` and reaches `except Exception`
with `req_id = "unknown"`. -/
def on_message (env : Env) (s : WSettings) (db : DBState) (props : Props)
    (parsed : Except String JVal) : List Effect × DBState :=
  match safe_json_loads parsed with
  | .error e => value_error_path env s db props (.jobj []) "unknown" e.msg
  | .ok (.jobj kvs) => process_request env s db props kvs
  | .ok v =>
    transient_path env s db props v "unknown"
      "AttributeError: object has no attribute get"

/-- Number of acknowledgements in an effect list. -/
def countAck : List Effect → Nat
  | [] => 0
  | .ack :: t => countAck t + 1
  | _ :: t => countAck t

/-- The Response-envelope invariant of the spec: exactly one of
`data`/`error` is non-null, selected by `status`. -/
def respWF (r : Response) : Bool :=
  ((!(r.status == "ok")) || (r.data.isSome && r.error.isNone)) &&
  ((!(r.status == "error")) || (r.error.isSome && r.data.isNone))

/-- The Response published by a publish effect, if any. -/
def publishedResp : Effect → Option Response
  | .publishReply _ _ r => some r
  | .publishResponses _ _ _ r => some r
  | _ => none

/-- Is an effect a publication to the retry route? -/
def isRetryPublish : Effect → Bool
  | .publishRetry _ _ _ _ _ _ => true
  | _ => false

/-- Number of publications to the retry route in an effect list. -/
def countRetryPub : List Effect → Nat
  | [] => 0
  | .publishRetry _ _ _ _ _ _ :: t => countRetryPub t + 1
  | _ :: t => countRetryPub t

/-- Number of dead-letter publications in an effect list. -/
def countDlqPub : List Effect → Nat
  | [] => 0
  | .publishDlq _ _ _ _ _ _ _ _ :: t => countDlqPub t + 1
  | _ :: t => countDlqPub t

/-! ### Concrete fixtures, used to evaluate the theorems on closed inputs -/

/-- A concrete environment: one valid token resolving to user 1. -/
def envT : Env :=
  { jwtDecode := fun t => if t = "tok1" then some [("sub", .jstr "1")] else none,
    hashPassword := fun _ => "hashed",
    verifyPassword := fun _ _ => true,
    createAccessToken := fun sub => "token-" ++ sub,
    parseIso := fun st => if st = "2025-12-31" then some "2025-12-31T00:00:00" else none,
    nowIso := "2026-01-01T00:00:00" }

/-- Concrete worker settings with the default `max_retries = 3`. -/
def wsT : WSettings :=
  { exchange := "api.direct", responses_rk := "api.responses",
    retry_rk := "api.requests.retry", dlq_rk := "api.requests.dlq", max_retries := 3 }

/-- A concrete registered user. -/
def userT : UserR :=
  { id := 1, email := .jstr "a@b.c", password_hash := "hashed", full_name := .jstr "A" }

/-- A concrete database with one user, no tasks and an empty ledger. -/
def dbT : DBState :=
  { users := [userT], tasks := [], ledger := [], nextUserId := 2, nextTaskId := 1 }

/-- A concrete stored ledger Response for request id `r1`. -/
def respT : Response := make_resp "r1" "ok" (some (.jobj [("status", .jstr "ok")])) none

/-- A second, different Response for the same id. -/
def respT2 : Response := make_resp "r1" "error" none (some "other")

/-- `dbT` with `r1` already recorded in the ledger. -/
def dbLedgerT : DBState := { dbT with ledger := [("r1", respT)] }

/-- Concrete delivery properties: a reply queue, no retry header. -/
def propsT : Props :=
  { correlation_id := some "r1", reply_to := some "amq.gen-xyz", headers := none }

/-- All responses published by a list of effects are well-formed. -/
def effectsWF (effs : List Effect) : Prop :=
  ∀ eff ∈ effs, ∀ r, publishedResp eff = some r → respWF r = true

/-- All responses stored in the ledger are well-formed. -/
def ledgerWF (db : DBState) : Prop :=
  ∀ p ∈ db.ledger, respWF p.2 = true

/-- A concrete request: valid envelope, resolvable token, `get_task`
with a non-numeric `task_id` (so `int(task_id)` raises `ValueError`). -/
def reqBadTid : JVal :=
  .jobj [("id", .jstr "r1"), ("version", .jstr "v1"), ("action", .jstr "get_task"),
         ("auth", .jstr "tok1"), ("data", .jobj [("task_id", .jstr "abc")])]

/-- A concrete request whose data asks for the simulated transient
fault, with every other envelope field missing. -/
def reqSimOnly : JVal :=
  .jobj [("data", .jobj [("simulate_temp_error", .jbool true)])]

/-- Concrete delivery properties carrying an unparseable retry header. -/
def propsBadHeaderT : Props :=
  { correlation_id := some "r1", reply_to := none,
    headers := some [("x-retry-count", .jstr "abc")] }

/-! ### Structural lemmas -/

/-- Is an effect the acknowledgement? -/
def isAck : Effect → Bool
  | .ack => true
  | _ => false

theorem countAck_nil : countAck [] = 0 := rfl

theorem countAck_cons (e : Effect) (t : List Effect) :
    countAck (e :: t) = countAck t + (if isAck e then 1 else 0) := by
  cases e <;> rfl

theorem countAck_append (a b : List Effect) :
    countAck (a ++ b) = countAck a + countAck b := by
  induction a with
  | nil => rw [List.nil_append, countAck_nil]; omega
  | cons h t ih => rw [List.cons_append, countAck_cons, countAck_cons, ih]; omega

theorem isAck_publish_response (s : WSettings) (props : Props) (r : Response) :
    isAck (publish_response s props r) = false := by
  unfold publish_response
  rcases props.reply_to with _ | rt
  · rfl
  · dsimp only
    split <;> rfl

theorem isAck_send_to_dlq (env : Env) (s : WSettings) (b : JVal) (props : Props)
    (reason : String) : isAck (send_to_dlq env s b props reason) = false := rfl

theorem isAck_republish (s : WSettings) (b : JVal) (props : Props) :
    isAck (republish_to_retry s b props) = false := rfl

theorem isAck_ack : isAck .ack = true := rfl

theorem countAck_value_error_path (env : Env) (s : WSettings) (db : DBState) (props : Props)
    (b : JVal) (rid m : String) :
    countAck (value_error_path env s db props b rid m).1 = 1 := by
  simp [value_error_path, countAck_cons, countAck_nil, isAck_publish_response,
    isAck_send_to_dlq, isAck_ack]

theorem countAck_transient_path (env : Env) (s : WSettings) (db : DBState) (props : Props)
    (b : JVal) (rid m : String) :
    countAck (transient_path env s db props b rid m).1 = 1 := by
  unfold transient_path
  split
  · rfl
  · simp [countAck_cons, countAck_nil, isAck_publish_response, isAck_send_to_dlq, isAck_ack]

theorem countAck_success_path (env : Env) (s : WSettings) (db : DBState) (props : Props)
    (b : JVal) (rid : String) (resp : Response) :
    countAck (success_path env s db props b rid resp).1 = 1 := by
  unfold success_path
  split
  · simp [countAck_cons, countAck_nil, isAck_publish_response, isAck_ack]
  · exact countAck_transient_path ..

theorem countAck_business_error_path (env : Env) (s : WSettings) (db : DBState) (props : Props)
    (b : JVal) (rid : String) (resp : Response) :
    countAck (business_error_path env s db props b rid resp).1 = 1 := by
  unfold business_error_path
  split
  · simp [countAck_append, countAck_cons, countAck_nil, isAck_publish_response,
      isAck_send_to_dlq, isAck_ack]
  · simp [countAck_append, countAck_cons, countAck_nil, isAck_publish_response,
      isAck_send_to_dlq, isAck_ack, countAck_transient_path]

end MQ

namespace MQ

theorem ledgerLookup_mem (l : List (String × Response)) (id : String) (r : Response)
    (h : ledgerLookup l id = some r) : (id, r) ∈ l := by
  induction l with
  | nil => simp [ledgerLookup] at h
  | cons p t ih =>
    rcases p with ⟨k, r0⟩
    simp only [ledgerLookup] at h
    by_cases hk : k = id
    · rw [if_pos hk] at h
      injection h with h
      subst hk
      subst h
      exact List.mem_cons_self _ _
    · rw [if_neg hk] at h
      exact List.mem_cons_of_mem _ (ih h)

theorem ledgerLookup_append_self (l : List (String × Response)) (id : String) (r : Response)
    (h : ledgerLookup l id = none) : ledgerLookup (l ++ [(id, r)]) id = some r := by
  induction l with
  | nil => simp [ledgerLookup]
  | cons p t ih =>
    rcases p with ⟨k, r0⟩
    simp only [ledgerLookup] at h ⊢
    by_cases hk : k = id
    · rw [if_pos hk] at h
      cases h
    · rw [if_neg hk] at h ⊢
      exact ih h

theorem registerAction_ledger (env : Env) (db : DBState) (rid : String)
    (data : List (String × JVal)) :
    ((registerAction env db rid data).2).ledger = db.ledger := by
  unfold registerAction
  try dsimp only
  repeat' split
  all_goals rfl

theorem loginAction_ledger (env : Env) (db : DBState) (rid : String)
    (data : List (String × JVal)) :
    ((loginAction env db rid data).2).ledger = db.ledger := by
  unfold loginAction
  try dsimp only
  repeat' split
  all_goals rfl

theorem createTask_ledger (env : Env) (db : DBState) (rid version : String)
    (data : List (String × JVal)) (u : UserR) :
    ((createTask env db rid version data u).2).ledger = db.ledger := by
  unfold createTask
  try dsimp only
  repeat' split
  all_goals rfl

theorem getTask_ledger (db : DBState) (rid : String) (data : List (String × JVal))
    (u : UserR) : ((getTask db rid data u).2).ledger = db.ledger := by
  unfold getTask
  try dsimp only
  repeat' split
  all_goals rfl

theorem updateTask_ledger (env : Env) (db : DBState) (rid version : String)
    (data : List (String × JVal)) (u : UserR) :
    ((updateTask env db rid version data u).2).ledger = db.ledger := by
  unfold updateTask
  try dsimp only
  repeat' split
  all_goals rfl

theorem deleteTask_ledger (db : DBState) (rid : String) (data : List (String × JVal))
    (u : UserR) : ((deleteTask db rid data u).2).ledger = db.ledger := by
  unfold deleteTask
  try dsimp only
  repeat' split
  all_goals rfl

theorem taskActions_ledger (env : Env) (db : DBState) (rid version action : String)
    (data : List (String × JVal)) (u : UserR) :
    ((taskActions env db rid version action data u).2).ledger = db.ledger := by
  unfold taskActions
  try dsimp only
  repeat' split
  all_goals first
    | rfl
    | exact createTask_ledger ..
    | exact getTask_ledger ..
    | exact updateTask_ledger ..
    | exact deleteTask_ledger ..

theorem handleAction_ledger (env : Env) (db : DBState) (rid version action : String)
    (data : List (String × JVal)) (auth : String) :
    ((handleAction env db rid version action data auth).2).ledger = db.ledger := by
  unfold handleAction
  try dsimp only
  repeat' split
  all_goals first
    | rfl
    | exact registerAction_ledger ..
    | exact loginAction_ledger ..
    | exact taskActions_ledger ..

/-- `handle_request` never touches the `processed_requests` table. -/
theorem handle_request_ledger (env : Env) (db : DBState) (req : JVal) :
    ((handle_request env db req).2).ledger = db.ledger := by
  unfold handle_request
  try dsimp only
  repeat' split
  all_goals first
    | rfl
    | exact handleAction_ledger ..

end MQ

namespace MQ

theorem registerAction_wf (env : Env) (db : DBState) (rid : String)
    (data : List (String × JVal)) (r : Response) (db1 : DBState)
    (h : registerAction env db rid data = (.ok r, db1)) : respWF r = true := by
  unfold registerAction at h
  try dsimp only at h
  repeat' split at h
  all_goals first
    | (injection h with h1 h2; injection h1 with h1; subst h1; rfl)
    | (injection h with h1 h2; injection h1)

theorem loginAction_wf (env : Env) (db : DBState) (rid : String)
    (data : List (String × JVal)) (r : Response) (db1 : DBState)
    (h : loginAction env db rid data = (.ok r, db1)) : respWF r = true := by
  unfold loginAction at h
  try dsimp only at h
  repeat' split at h
  all_goals first
    | (injection h with h1 h2; injection h1 with h1; subst h1; rfl)
    | (injection h with h1 h2; injection h1)

theorem createTask_wf (env : Env) (db : DBState) (rid version : String)
    (data : List (String × JVal)) (u : UserR) (r : Response) (db1 : DBState)
    (h : createTask env db rid version data u = (.ok r, db1)) : respWF r = true := by
  unfold createTask at h
  try dsimp only at h
  repeat' split at h
  all_goals first
    | (injection h with h1 h2; injection h1 with h1; subst h1; rfl)
    | (injection h with h1 h2; injection h1)

theorem getTask_wf (db : DBState) (rid : String) (data : List (String × JVal))
    (u : UserR) (r : Response) (db1 : DBState)
    (h : getTask db rid data u = (.ok r, db1)) : respWF r = true := by
  unfold getTask at h
  try dsimp only at h
  repeat' split at h
  all_goals first
    | (injection h with h1 h2; injection h1 with h1; subst h1; rfl)
    | (injection h with h1 h2; injection h1)

theorem updateTask_wf (env : Env) (db : DBState) (rid version : String)
    (data : List (String × JVal)) (u : UserR) (r : Response) (db1 : DBState)
    (h : updateTask env db rid version data u = (.ok r, db1)) : respWF r = true := by
  unfold updateTask at h
  try dsimp only at h
  repeat' split at h
  all_goals first
    | (injection h with h1 h2; injection h1 with h1; subst h1; rfl)
    | (injection h with h1 h2; injection h1)

theorem deleteTask_wf (db : DBState) (rid : String) (data : List (String × JVal))
    (u : UserR) (r : Response) (db1 : DBState)
    (h : deleteTask db rid data u = (.ok r, db1)) : respWF r = true := by
  unfold deleteTask at h
  try dsimp only at h
  repeat' split at h
  all_goals first
    | (injection h with h1 h2; injection h1 with h1; subst h1; rfl)
    | (injection h with h1 h2; injection h1)

theorem taskActions_wf (env : Env) (db : DBState) (rid version action : String)
    (data : List (String × JVal)) (u : UserR) (r : Response) (db1 : DBState)
    (h : taskActions env db rid version action data u = (.ok r, db1)) :
    respWF r = true := by
  unfold taskActions at h
  repeat' split at h
  all_goals first
    | exact createTask_wf _ _ _ _ _ _ _ _ h
    | exact getTask_wf _ _ _ _ _ _ h
    | exact updateTask_wf _ _ _ _ _ _ _ _ h
    | exact deleteTask_wf _ _ _ _ _ _ h
    | (injection h with h1 h2; injection h1 with h1; subst h1; rfl)
    | (injection h with h1 h2; injection h1)

theorem handleAction_wf (env : Env) (db : DBState) (rid version action : String)
    (data : List (String × JVal)) (auth : String) (r : Response) (db1 : DBState)
    (h : handleAction env db rid version action data auth = (.ok r, db1)) :
    respWF r = true := by
  unfold handleAction at h
  repeat' split at h
  all_goals first
    | exact registerAction_wf _ _ _ _ _ _ h
    | exact loginAction_wf _ _ _ _ _ _ h
    | exact taskActions_wf _ _ _ _ _ _ _ _ _ h
    | (injection h with h1 h2; injection h1 with h1; subst h1; rfl)
    | (injection h with h1 h2; injection h1)

/-- Every Response that `handle_request` returns (success or business
error) has exactly one of `data`/`error` non-null, selected by `status`. -/
theorem handle_request_wf (env : Env) (db : DBState) (req : JVal) (r : Response)
    (db1 : DBState) (h : handle_request env db req = (.ok r, db1)) :
    respWF r = true := by
  unfold handle_request at h
  repeat' first
    | split at h
    | dsimp only at h
  all_goals first
    | exact handleAction_wf _ _ _ _ _ _ _ _ _ h
    | (injection h with h1 h2; injection h1 with h1; subst h1; rfl)
    | (injection h with h1 h2; injection h1)

theorem publishedResp_publish_response (s : WSettings) (props : Props) (r : Response) :
    publishedResp (publish_response s props r) = some r := by
  unfold publish_response
  rcases props.reply_to with _ | rt
  · rfl
  · dsimp only
    by_cases h : rt ≠ ""
    · rw [if_pos h]
      rfl
    · rw [if_neg h]
      rfl

theorem effectsWF_nil : effectsWF [] := by
  intro eff hm
  cases hm

theorem effectsWF_cons_nonpub (e : Effect) (effs : List Effect)
    (he : publishedResp e = none) (h : effectsWF effs) : effectsWF (e :: effs) := by
  intro eff hm r hr
  rcases List.mem_cons.1 hm with rfl | hm2
  · rw [he] at hr; cases hr
  · exact h eff hm2 r hr

theorem effectsWF_cons_pub (s : WSettings) (props : Props) (resp : Response)
    (effs : List Effect) (hresp : respWF resp = true) (h : effectsWF effs) :
    effectsWF (publish_response s props resp :: effs) := by
  intro eff hm r hr
  rcases List.mem_cons.1 hm with rfl | hm2
  · rw [publishedResp_publish_response] at hr
    injection hr with hr
    subst hr
    exact hresp
  · exact h eff hm2 r hr

theorem effectsWF_append (a b : List Effect) (ha : effectsWF a) (hb : effectsWF b) :
    effectsWF (a ++ b) := by
  intro eff hm r hr
  rcases List.mem_append.1 hm with h | h
  · exact ha eff h r hr
  · exact hb eff h r hr

theorem wf_append_single (l : List (String × Response)) (id : String) (resp : Response)
    (hdb : ∀ p ∈ l, respWF p.2 = true) (hr : respWF resp = true) :
    ∀ p ∈ l ++ [(id, resp)], respWF p.2 = true := by
  intro p hp
  rcases List.mem_append.1 hp with h | h
  · exact hdb p h
  · rcases List.mem_singleton.1 h with rfl
    exact hr

end MQ

namespace MQ

theorem ledgerWF_of_eq (db db1 : DBState) (h : db1.ledger = db.ledger)
    (hdb : ledgerWF db) : ledgerWF db1 := by
  intro p hp
  rw [h] at hp
  exact hdb p hp

theorem record_ledger_ok_ledger (db : DBState) (rid : String) (resp : Response)
    (db2 : DBState) (h : record_ledger db rid resp = .ok db2) :
    db2.ledger = db.ledger ++ [(rid, resp)] := by
  unfold record_ledger at h
  split at h
  · injection h
  · injection h with h
    subst h
    rfl

theorem record_ledger_caught_wf (db : DBState) (rid : String) (resp : Response)
    (hdb : ledgerWF db) (hr : respWF resp = true) :
    ledgerWF (record_ledger_caught db rid resp) := by
  unfold record_ledger_caught
  cases hrec : record_ledger db rid resp with
  | ok db2 =>
    intro p hp
    rw [record_ledger_ok_ledger _ _ _ _ hrec] at hp
    exact wf_append_single _ _ _ hdb hr p hp
  | error e => exact hdb

theorem value_error_path_wf (env : Env) (s : WSettings) (db : DBState) (props : Props)
    (b : JVal) (rid m : String) (hdb : ledgerWF db) :
    effectsWF (value_error_path env s db props b rid m).1 ∧
    ledgerWF (value_error_path env s db props b rid m).2 := by
  unfold value_error_path
  exact ⟨effectsWF_cons_nonpub _ _ rfl
    (effectsWF_cons_pub _ _ _ _ rfl (effectsWF_cons_nonpub _ _ rfl effectsWF_nil)), hdb⟩

theorem transient_path_wf (env : Env) (s : WSettings) (db : DBState) (props : Props)
    (b : JVal) (rid m : String) (hdb : ledgerWF db) :
    effectsWF (transient_path env s db props b rid m).1 ∧
    ledgerWF (transient_path env s db props b rid m).2 := by
  unfold transient_path
  split
  · exact ⟨effectsWF_cons_nonpub _ _ rfl
      (effectsWF_cons_nonpub _ _ rfl effectsWF_nil), hdb⟩
  · constructor
    · exact effectsWF_cons_nonpub _ _ rfl
        (effectsWF_cons_pub _ _ _ _ rfl (effectsWF_cons_nonpub _ _ rfl effectsWF_nil))
    · exact record_ledger_caught_wf _ _ _ hdb rfl

theorem success_path_wf (env : Env) (s : WSettings) (db : DBState) (props : Props)
    (b : JVal) (rid : String) (resp : Response) (hdb : ledgerWF db)
    (hr : respWF resp = true) :
    effectsWF (success_path env s db props b rid resp).1 ∧
    ledgerWF (success_path env s db props b rid resp).2 := by
  unfold success_path
  cases hrec : record_ledger db rid resp with
  | ok db2 =>
    constructor
    · exact effectsWF_cons_pub _ _ _ _ hr (effectsWF_cons_nonpub _ _ rfl effectsWF_nil)
    · intro p hp
      rw [record_ledger_ok_ledger _ _ _ _ hrec] at hp
      exact wf_append_single _ _ _ hdb hr p hp
  | error e => exact transient_path_wf _ _ _ _ _ _ _ hdb

theorem business_error_path_wf (env : Env) (s : WSettings) (db : DBState) (props : Props)
    (b : JVal) (rid : String) (resp : Response) (hdb : ledgerWF db)
    (hr : respWF resp = true) :
    effectsWF (business_error_path env s db props b rid resp).1 ∧
    ledgerWF (business_error_path env s db props b rid resp).2 := by
  unfold business_error_path
  cases hrec : record_ledger db rid resp with
  | ok db2 =>
    constructor
    · exact effectsWF_cons_nonpub _ _ rfl
        (effectsWF_cons_pub _ _ _ _ hr (effectsWF_cons_nonpub _ _ rfl effectsWF_nil))
    · intro p hp
      rw [record_ledger_ok_ledger _ _ _ _ hrec] at hp
      exact wf_append_single _ _ _ hdb hr p hp
  | error e =>
    constructor
    · refine effectsWF_cons_nonpub _ _ rfl (effectsWF_cons_pub _ _ _ _ hr ?_)
      exact (transient_path_wf _ _ _ _ _ _ _ hdb).1
    · exact (transient_path_wf _ _ _ _ _ _ _ hdb).2

theorem process_request_wf (env : Env) (s : WSettings) (db : DBState) (props : Props)
    (kvs : List (String × JVal)) (hdb : ledgerWF db) :
    effectsWF (process_request env s db props kvs).1 ∧
    ledgerWF (process_request env s db props kvs).2 := by
  unfold process_request
  cases hcache : ledgerLookup db.ledger (req_id_of kvs) with
  | some cached =>
    constructor
    · exact effectsWF_cons_pub _ _ _ _
        (hdb _ (ledgerLookup_mem _ _ _ hcache)) (effectsWF_cons_nonpub _ _ rfl effectsWF_nil)
    · exact hdb
  | none =>
    cases hhr : handle_request env db (.jobj kvs) with
    | mk res db1 =>
      have hl : db1.ledger = db.ledger := by
        have h := handle_request_ledger env db (.jobj kvs)
        rw [hhr] at h
        exact h
      have hdb1 : ledgerWF db1 := ledgerWF_of_eq _ _ hl hdb
      cases res with
      | ok resp =>
        dsimp only
        split
        · exact business_error_path_wf _ _ _ _ _ _ _ hdb1
            (handle_request_wf _ _ _ _ _ hhr)
        · exact success_path_wf _ _ _ _ _ _ _ hdb1 (handle_request_wf _ _ _ _ _ hhr)
      | error e =>
        dsimp only
        split
        · exact value_error_path_wf _ _ _ _ _ _ _ hdb1
        · exact transient_path_wf _ _ _ _ _ _ _ hdb1

theorem on_message_wf_core (env : Env) (s : WSettings) (db : DBState) (props : Props)
    (parsed : Except String JVal) (hdb : ledgerWF db) :
    effectsWF (on_message env s db props parsed).1 ∧
    ledgerWF (on_message env s db props parsed).2 := by
  unfold on_message safe_json_loads
  rcases parsed with emsg | v
  · exact value_error_path_wf _ _ _ _ _ _ _ hdb
  · cases v with
    | jobj kvs => exact process_request_wf _ _ _ _ _ hdb
    | jnull => exact transient_path_wf _ _ _ _ _ _ _ hdb
    | jbool b => exact transient_path_wf _ _ _ _ _ _ _ hdb
    | jint n => exact transient_path_wf _ _ _ _ _ _ _ hdb
    | jstr st => exact transient_path_wf _ _ _ _ _ _ _ hdb
    | jarr xs => exact transient_path_wf _ _ _ _ _ _ _ hdb

end MQ

namespace MQ

theorem countAck_process_request (env : Env) (s : WSettings) (db : DBState)
    (props : Props) (kvs : List (String × JVal)) :
    countAck (process_request env s db props kvs).1 = 1 := by
  unfold process_request
  repeat' split
  all_goals first
    | simp [countAck_cons, countAck_nil, isAck_publish_response, isAck_ack]
    | exact countAck_business_error_path ..
    | exact countAck_success_path ..
    | exact countAck_value_error_path ..
    | exact countAck_transient_path ..

/-- C1: a delivery whose request id is already recorded in the ledger is
answered with the stored Response itself (published unchanged), the
delivery is acknowledged, and the handler is not invoked: the database
state (users, tasks, ledger) is returned untouched, so redelivering the
same id any number of times re-executes no side effect. -/
theorem replay_publishes_stored_response (env : Env) (s : WSettings) (db : DBState)
    (props : Props) (kvs : List (String × JVal)) (r : Response)
    (h : ledgerLookup db.ledger (req_id_of kvs) = some r) :
    on_message env s db props (.ok (.jobj kvs)) =
      ([publish_response s props r, .ack], db) := by
  simp only [on_message, safe_json_loads, process_request, h]

/-- Evaluation of C1 on a concrete input: a ledger holding `r1` makes
the worker replay the recorded Response and acknowledge. -/
theorem replay_publishes_stored_response_witness :
    on_message envT wsT dbLedgerT propsT (.ok (.jobj [("id", .jstr "r1")])) =
      ([publish_response wsT propsT respT, .ack], dbLedgerT) :=
  replay_publishes_stored_response envT wsT dbLedgerT propsT
    [("id", .jstr "r1")] respT rfl

/-- C2: every execution path of `on_message` — ledger replay, success,
business error, malformed input, retry scheduling, retries exhausted —
acknowledges the delivery exactly once. -/
theorem on_message_acks_exactly_once (env : Env) (s : WSettings) (db : DBState)
    (props : Props) (parsed : Except String JVal) :
    countAck (on_message env s db props parsed).1 = 1 := by
  unfold on_message safe_json_loads
  rcases parsed with emsg | v
  · exact countAck_value_error_path ..
  · cases v with
    | jobj kvs => exact countAck_process_request ..
    | jnull => exact countAck_transient_path ..
    | jbool b => exact countAck_transient_path ..
    | jint n => exact countAck_transient_path ..
    | jstr st => exact countAck_transient_path ..
    | jarr xs => exact countAck_transient_path ..

/-- C3 counterexample: the ledger record operation is a plain
primary-key INSERT, so a second `record` for an id that already has a
stored record raises an `IntegrityError` instead of being the claimed
silent insert-if-absent. -/
theorem record_duplicate_raises :
    record_ledger dbLedgerT "r1" respT2 =
      .error ⟨.otherError,
        "IntegrityError: UNIQUE constraint failed: processed_requests.id"⟩ := rfl

/-- C3 (amended): a second record for an id that already has a stored
record raises an integrity error and does not overwrite or corrupt the
first stored Response: the guarded form used by the retries-exhausted
path (insert, on failure roll back) leaves the ledger still mapping the
id to the originally recorded Response. -/
theorem second_record_raises_but_preserves_first (db : DBState) (id : String)
    (r0 r1 : Response) (h : ledgerLookup db.ledger id = some r0) :
    record_ledger db id r1 =
      .error ⟨.otherError,
        "IntegrityError: UNIQUE constraint failed: processed_requests.id"⟩ ∧
    ledgerLookup (record_ledger_caught db id r1).ledger id = some r0 := by
  constructor
  · unfold record_ledger
    rw [h]
  · unfold record_ledger_caught record_ledger
    rw [h]
    exact h

/-- Evaluation of the amended C3 on a concrete input. -/
theorem second_record_raises_but_preserves_first_witness :
    record_ledger dbLedgerT "r1" respT2 =
      .error ⟨.otherError,
        "IntegrityError: UNIQUE constraint failed: processed_requests.id"⟩ ∧
    ledgerLookup (record_ledger_caught dbLedgerT "r1" respT2).ledger "r1" = some respT :=
  second_record_raises_but_preserves_first dbLedgerT "r1" respT respT2 rfl

/-- C4 counterexample: on an undecodable body the worker dead-letters,
responds and acknowledges, but creates no Idempotency Ledger record —
the resulting ledger is still empty, while the claim requires the error
Response to be recorded. -/
theorem malformed_creates_no_ledger_record :
    (on_message envT wsT dbT propsT (.error "Expecting value")).2.ledger = [] ∧
    on_message envT wsT dbT propsT (.error "Expecting value") =
      ([send_to_dlq envT wsT (.jobj []) propsT "Invalid JSON: Expecting value",
        publish_response wsT propsT
          (make_resp "unknown" "error" none (some "Invalid JSON: Expecting value")),
        .ack], dbT) := ⟨rfl, rfl⟩

/-- C4 (amended): for every delivered message whose body is undecodable
the worker dead-letters it, publishes the error Response with the
correlation id `unknown` (the id being unrecoverable), and
acknowledges; it does not record the Response in the Ledger (the
database is returned unchanged). -/
theorem undecodable_body_is_permanent_without_record (env : Env) (s : WSettings)
    (db : DBState) (props : Props) (emsg : String) :
    on_message env s db props (.error emsg) =
      ([send_to_dlq env s (.jobj []) props ("Invalid JSON: " ++ emsg),
        publish_response s props
          (make_resp "unknown" "error" none (some ("Invalid JSON: " ++ emsg))),
        .ack], db) := rfl

end MQ

namespace MQ

/-- C5: when the dispatcher raises a non-`ValueError` exception and the
retry counter read from the headers is below `max_retries`, the worker
re-publishes the original request to the retry route with the counter
incremented by exactly one and the correlation id and reply destination
preserved, acknowledges, and creates no ledger record. -/
theorem retry_scheduled_below_max (env : Env) (s : WSettings) (db db1 : DBState)
    (props : Props) (kvs : List (String × JVal)) (e : PyExc)
    (hmiss : ledgerLookup db.ledger (req_id_of kvs) = none)
    (hh : handle_request env db (.jobj kvs) = (.error e, db1))
    (hk : ¬ e.kind = .valueError)
    (hrc : get_retry_count props < s.max_retries) :
    on_message env s db props (.ok (.jobj kvs)) =
      ([Effect.publishRetry s.exchange s.retry_rk props.correlation_id props.reply_to
          (get_retry_count props + 1) (.jobj kvs), .ack], db1) ∧
    db1.ledger = db.ledger := by
  have hl : db1.ledger = db.ledger := by
    have hpres := handle_request_ledger env db (.jobj kvs)
    rw [hh] at hpres
    exact hpres
  refine ⟨?_, hl⟩
  simp only [on_message, safe_json_loads, process_request, hmiss, hh]
  rw [if_neg hk]
  unfold transient_path
  rw [if_pos hrc]
  rfl

/-- Evaluation of C5 on a concrete input: the simulated transient fault
on a first delivery produces a retry publication with counter 1. -/
theorem retry_scheduled_below_max_witness :
    on_message envT wsT dbT propsT
        (.ok (.jobj [("id", .jstr "r1"),
          ("data", .jobj [("simulate_temp_error", .jbool true)])])) =
      ([Effect.publishRetry wsT.exchange wsT.retry_rk propsT.correlation_id
          propsT.reply_to (get_retry_count propsT + 1)
          (.jobj [("id", .jstr "r1"),
            ("data", .jobj [("simulate_temp_error", .jbool true)])]), .ack], dbT) ∧
    dbT.ledger = dbT.ledger :=
  retry_scheduled_below_max envT wsT dbT dbT propsT
    [("id", .jstr "r1"), ("data", .jobj [("simulate_temp_error", .jbool true)])]
    ⟨.otherError, "Simulated temporary error"⟩ rfl rfl (by decide) (by decide)

/-- C6: when the dispatcher raises an unexpected (non-`ValueError`)
exception and the retry counter has reached `max_retries`, the worker
publishes exactly one dead-letter entry whose reason starts with
`retries exhausted`, records exactly one error Response in the ledger,
publishes that Response, acknowledges, and performs no retry
publication (the effect list is exactly dead-letter, response, ack). -/
theorem retries_exhausted_terminal (env : Env) (s : WSettings) (db db1 : DBState)
    (props : Props) (kvs : List (String × JVal)) (e : PyExc)
    (hmiss : ledgerLookup db.ledger (req_id_of kvs) = none)
    (hh : handle_request env db (.jobj kvs) = (.error e, db1))
    (hk : ¬ e.kind = .valueError)
    (hrc : ¬ get_retry_count props < s.max_retries) :
    on_message env s db props (.ok (.jobj kvs)) =
      ([send_to_dlq env s (.jobj kvs) props ("retries exhausted: " ++ e.msg),
        publish_response s props
          (make_resp (req_id_of kvs) "error" none
            (some ("retries exhausted: " ++ e.msg))),
        .ack],
       { db1 with ledger := db.ledger ++ [(req_id_of kvs,
           make_resp (req_id_of kvs) "error" none
             (some ("retries exhausted: " ++ e.msg)))] }) := by
  have hl : db1.ledger = db.ledger := by
    have hpres := handle_request_ledger env db (.jobj kvs)
    rw [hh] at hpres
    exact hpres
  simp only [on_message, safe_json_loads, process_request, hmiss, hh]
  rw [if_neg hk]
  unfold transient_path
  rw [if_neg hrc]
  unfold record_ledger_caught record_ledger
  rw [hl, hmiss]

/-- Evaluation of C6 on a concrete input: the simulated transient fault
delivered with retry counter 3 (= `max_retries`) dead-letters, records
and responds. -/
theorem retries_exhausted_terminal_witness :
    on_message envT wsT dbT
        { propsT with headers := some [("x-retry-count", .jint 3)] }
        (.ok (.jobj [("id", .jstr "r1"),
          ("data", .jobj [("simulate_temp_error", .jbool true)])])) =
      ([send_to_dlq envT wsT
          (.jobj [("id", .jstr "r1"),
            ("data", .jobj [("simulate_temp_error", .jbool true)])])
          { propsT with headers := some [("x-retry-count", .jint 3)] }
          ("retries exhausted: " ++ "Simulated temporary error"),
        publish_response wsT { propsT with headers := some [("x-retry-count", .jint 3)] }
          (make_resp "r1" "error" none
            (some ("retries exhausted: " ++ "Simulated temporary error"))),
        .ack],
       { dbT with ledger := dbT.ledger ++ [("r1",
           make_resp "r1" "error" none
             (some ("retries exhausted: " ++ "Simulated temporary error")))] }) :=
  retries_exhausted_terminal envT wsT dbT dbT
    { propsT with headers := some [("x-retry-count", .jint 3)] }
    [("id", .jstr "r1"), ("data", .jobj [("simulate_temp_error", .jbool true)])]
    ⟨.otherError, "Simulated temporary error"⟩ rfl rfl (by decide) (by decide)

/-- C7 counterexample: a handler exception that is a `ValueError`
(`int("abc")` inside `get_task`) is caught by the permanent
malformed-input handler, not retried: although the retry counter 0 is
below `max_retries`, the effect list contains no retry publication and
is the permanent dead-letter/respond/acknowledge sequence. -/
theorem handler_valueerror_goes_permanent :
    on_message envT wsT dbT propsT (.ok reqBadTid) =
      ([send_to_dlq envT wsT reqBadTid propsT
          "invalid literal for int() with base 10: abc",
        publish_response wsT propsT
          (make_resp "r1" "error" none
            (some "invalid literal for int() with base 10: abc")),
        .ack], dbT) ∧
    get_retry_count propsT < wsT.max_retries ∧
    countRetryPub (on_message envT wsT dbT propsT (.ok reqBadTid)).1 = 0 :=
  ⟨rfl, by decide, rfl⟩

/-- C7 (amended): a dispatcher exception with the retry counter below
`max_retries` is classified by its exception class: a non-`ValueError`
exception takes the retry path, while a `ValueError` escaping the
handler takes the permanent malformed-input path (dead-letter, respond,
acknowledge, no retry). -/
theorem dispatcher_exception_classification (env : Env) (s : WSettings) (db db1 : DBState)
    (props : Props) (kvs : List (String × JVal)) (e : PyExc)
    (hmiss : ledgerLookup db.ledger (req_id_of kvs) = none)
    (hh : handle_request env db (.jobj kvs) = (.error e, db1))
    (hrc : get_retry_count props < s.max_retries) :
    (on_message env s db props (.ok (.jobj kvs))).1 =
      (if e.kind = .valueError then
        [send_to_dlq env s (.jobj kvs) props e.msg,
         publish_response s props (make_resp (req_id_of kvs) "error" none (some e.msg)),
         .ack]
      else
        [republish_to_retry s (.jobj kvs) props, .ack]) := by
  simp only [on_message, safe_json_loads, process_request, hmiss, hh]
  by_cases hk : e.kind = .valueError
  · rw [if_pos hk, if_pos hk]
    rfl
  · rw [if_neg hk, if_neg hk]
    unfold transient_path
    rw [if_pos hrc]

/-- Evaluation of the amended C7 on a concrete input: the `ValueError`
raised beneath the dispatcher by `get_task` with `task_id="abc"` lands
in the permanent branch of the classification. -/
theorem dispatcher_exception_classification_witness :
    (on_message envT wsT dbT propsT (.ok reqBadTid)).1 =
      (if (PyExc.mk .valueError "invalid literal for int() with base 10: abc").kind
          = .valueError then
        [send_to_dlq envT wsT reqBadTid propsT
          "invalid literal for int() with base 10: abc",
         publish_response wsT propsT
           (make_resp (req_id_of [("id", .jstr "r1"), ("version", .jstr "v1"),
             ("action", .jstr "get_task"), ("auth", .jstr "tok1"),
             ("data", .jobj [("task_id", .jstr "abc")])]) "error" none
             (some "invalid literal for int() with base 10: abc")),
         .ack]
      else
        [republish_to_retry wsT reqBadTid propsT, .ack]) :=
  dispatcher_exception_classification envT wsT dbT dbT propsT
    [("id", .jstr "r1"), ("version", .jstr "v1"), ("action", .jstr "get_task"),
     ("auth", .jstr "tok1"), ("data", .jobj [("task_id", .jstr "abc")])]
    ⟨.valueError, "invalid literal for int() with base 10: abc"⟩ rfl rfl (by decide)

end MQ

namespace MQ

/-- C8: assuming every Response already stored in the ledger is
well-formed, every Response the worker publishes on any path, and every
Response it records, satisfies the envelope invariant: status `ok` has
non-null data and null error, status `error` has non-null error and
null data. -/
theorem worker_responses_wellformed (env : Env) (s : WSettings) (db : DBState)
    (props : Props) (parsed : Except String JVal) (hdb : ledgerWF db) :
    effectsWF (on_message env s db props parsed).1 ∧
    ledgerWF (on_message env s db props parsed).2 :=
  on_message_wf_core env s db props parsed hdb

/-- Evaluation of C8 on a concrete input (a successful health check on
an empty ledger). -/
theorem worker_responses_wellformed_witness :
    effectsWF (on_message envT wsT dbT propsT
      (.ok (.jobj [("id", .jstr "r1"), ("version", .jstr "v1"),
        ("action", .jstr "health_check")]))).1 ∧
    ledgerWF (on_message envT wsT dbT propsT
      (.ok (.jobj [("id", .jstr "r1"), ("version", .jstr "v1"),
        ("action", .jstr "health_check")]))).2 :=
  worker_responses_wellformed envT wsT dbT propsT
    (.ok (.jobj [("id", .jstr "r1"), ("version", .jstr "v1"),
      ("action", .jstr "health_check")]))
    (fun p hp => nomatch hp)

/-- C9: reading the retry counter from the message headers is total and
defaults to zero: an absent `x-retry-count` header yields 0, and a
header value on which the `int` builtin raises also yields 0. -/
theorem get_retry_count_total_defaults (props : Props) :
    (jLookup (props.headers.getD []) "x-retry-count" = none →
      get_retry_count props = 0) ∧
    (∀ v e, jLookup (props.headers.getD []) "x-retry-count" = some v →
      pyInt v = .error e → get_retry_count props = 0) := by
  constructor
  · intro h
    unfold get_retry_count
    rw [h]
  · intro v e h hp
    unfold get_retry_count
    rw [h]
    dsimp only
    rw [hp]

/-- Evaluation of C9 on concrete inputs: an unparseable header value and
an absent header both read as 0. -/
theorem get_retry_count_total_defaults_witness :
    get_retry_count propsBadHeaderT = 0 ∧ get_retry_count propsT = 0 :=
  ⟨(get_retry_count_total_defaults propsBadHeaderT).2 (.jstr "abc")
      ⟨.valueError, "invalid literal for int() with base 10: abc"⟩ rfl rfl,
   (get_retry_count_total_defaults propsT).1 rfl⟩

/-- C10: a decodable request whose data mapping holds
`simulate_temp_error: true` makes `handle_request` raise before field
validation, authentication or dispatch (the database is untouched and
the exception is the generic one), and on a first delivery (counter
below `max_retries`) the worker takes the retry path — whatever the
other envelope fields are. -/
theorem simulate_temp_error_short_circuits (env : Env) (s : WSettings) (db : DBState)
    (props : Props) (kvs dkvs : List (String × JVal))
    (hdata : pyOr (jLookup kvs "data") (.jobj []) = .jobj dkvs)
    (hsim : jLookup dkvs "simulate_temp_error" = some (.jbool true))
    (hmiss : ledgerLookup db.ledger (req_id_of kvs) = none)
    (hrc : get_retry_count props < s.max_retries) :
    handle_request env db (.jobj kvs) =
      (.error ⟨.otherError, "Simulated temporary error"⟩, db) ∧
    on_message env s db props (.ok (.jobj kvs)) =
      ([republish_to_retry s (.jobj kvs) props, .ack], db) := by
  have hhr : handle_request env db (.jobj kvs) =
      (.error ⟨.otherError, "Simulated temporary error"⟩, db) := by
    simp only [handle_request, hdata, hsim]
  refine ⟨hhr, ?_⟩
  simp only [on_message, safe_json_loads, process_request, hmiss, hhr]
  rw [if_neg (show ¬ (PyExc.mk .otherError "Simulated temporary error").kind
    = .valueError by decide)]
  unfold transient_path
  rw [if_pos hrc]

/-- Evaluation of C10 on a concrete input: the simulate flag alone, with
id, version, action and auth all missing, is retried. -/
theorem simulate_temp_error_short_circuits_witness :
    handle_request envT dbT reqSimOnly =
      (.error ⟨.otherError, "Simulated temporary error"⟩, dbT) ∧
    on_message envT wsT dbT propsT (.ok reqSimOnly) =
      ([republish_to_retry wsT reqSimOnly propsT, .ack], dbT) :=
  simulate_temp_error_short_circuits envT wsT dbT propsT
    [("data", .jobj [("simulate_temp_error", .jbool true)])]
    [("simulate_temp_error", .jbool true)] rfl rfl rfl (by decide)

end MQ
